import Mathlib

/-!
Shallow embedding of the Differentiable Neural Computer (DNC) module of
libdeep, `src/deeplearn_dnc.c`, together with theorems settling the
specification claims about it.

Modelling choices:
* C `float` scalars are modelled by `ℚ`; the module only stores, copies and
  zeroes scalars (no floating-point arithmetic is performed anywhere in the
  code under study), so an exact field is a faithful stand-in.
* Heap pointers are modelled by `Ptr α`: `null` (a NULL pointer), `garbage`
  (an indeterminate pointer value, as found in memory freshly returned by
  `malloc` or in never-assigned struct fields), or `valid a` (a pointer to an
  allocated object with contents `a`).
* `malloc` is modelled by an `Allocator` oracle: for each allocation (counted
  in program order) it decides success or failure, and supplies the
  indeterminate initial contents of the allocated buffer (C `malloc` does not
  zero memory).
* The header `deeplearn_dnc.h` and the controller network implementation
  (`deeplearn_init` and friends) are not part of the sources under study;
  those pieces are modelled from the specification and are marked
  `Modelled from the spec:` in their doc comments.
-/

/-- A C pointer value: NULL, an indeterminate (never assigned / uninitialised)
pointer, or a pointer to an allocated object holding `a`. -/
inductive Ptr (α : Type) where
  | null : Ptr α
  | garbage : Ptr α
  | valid : α → Ptr α
deriving DecidableEq

/-- Apply `f` to the pointed-to contents of an allocated pointer; NULL and
indeterminate pointers are unaffected. -/
def Ptr.map {α : Type} (f : α → α) : Ptr α → Ptr α
  | .null => .null
  | .garbage => .garbage
  | .valid a => .valid (f a)

/-- True exactly on the indeterminate pointer value. -/
def Ptr.isGarbage {α : Type} : Ptr α → Bool
  | .garbage => true
  | _ => false

/-- Oracle describing the behaviour of the C heap during one run: `ok n`
says whether the `n`-th `malloc` of the run (counted in program order)
succeeds, and `val n i` gives the indeterminate initial contents of scalar
`i` of the buffer returned by the `n`-th `malloc`. -/
structure Allocator where
  ok : ℕ → Bool
  val : ℕ → ℕ → ℚ

/-- The `n`-th `malloc` of a buffer of `len` floats: NULL on failure,
otherwise a valid buffer with indeterminate (oracle-supplied) contents. -/
def fmalloc (A : Allocator) (n len : ℕ) : Ptr (List ℚ) :=
  if A.ok n then Ptr.valid ((List.range len).map (A.val n)) else Ptr.null

/-- The `n`-th `malloc` of an array of `len` pointers (`float**`): NULL on
failure, otherwise a valid array whose slots hold indeterminate pointers. -/
def pmalloc (A : Allocator) (n len : ℕ) : Ptr (List (Ptr (List ℚ))) :=
  if A.ok n then Ptr.valid (List.replicate len Ptr.garbage) else Ptr.null

/-- Modelled from the spec: the build-time constant
`DEEPLEARNDNC_USAGE_BLOCK_SIZE` lives in the header `deeplearn_dnc.h`, which
is not among the sources under study; §8 Scenario B of the spec fixes it
to 16. -/
def DEEPLEARNDNC_USAGE_BLOCK_SIZE : ℕ := 16

/-- Modelled from the spec: the build-time head-count constants
`DEEPLEARNDNC_READ_HEADS` and `DEEPLEARNDNC_WRITE_HEADS` live in the missing
header and the spec leaves their values open, so they are carried as explicit
parameters of the model. -/
structure DncConfig where
  READ_HEADS : ℕ
  WRITE_HEADS : ℕ
deriving DecidableEq

/-- The `deeplearn_dnc_memory` component of the DNC struct: slot count,
vector width, the `float**` array of address vectors, the usage vector and
the in-struct array of temporal linkage matrix pointers (one per head,
each matrix stored as a flat `float*` buffer). -/
structure dnc_memory where
  size : ℕ
  width : ℕ
  address : Ptr (List (Ptr (List ℚ)))
  usage : Ptr (List ℚ)
  usage_temporal : List (Ptr (List ℚ))
deriving DecidableEq

/-- A read head: a content key vector. -/
structure dnc_read_head where
  key : Ptr (List ℚ)
deriving DecidableEq

/-- A write head: write vector, erase vector and content key vector. -/
structure dnc_write_head where
  write : Ptr (List ℚ)
  erase : Ptr (List ℚ)
  key : Ptr (List ℚ)
deriving DecidableEq

/-- Modelled from the spec: the external Controller network struct
(`deeplearn`, implemented outside the sources under study). Per §6 its
initialisation receives the interface widths and layer shape; the model
records exactly those. Error thresholds and the random seed are absorbed
into the oracle since no claim observes them. -/
structure deeplearn where
  no_of_inputs : ℕ
  no_of_hiddens : ℕ
  hidden_layers : ℕ
  no_of_outputs : ℕ
deriving DecidableEq

/-- The `deeplearn_dnc` struct: external I/O widths, the memory bank with
usage tracker, the in-struct arrays of read and write heads, and the owned
pointer to the Controller network. -/
structure deeplearn_dnc where
  no_of_inputs : ℕ
  no_of_outputs : ℕ
  memory : dnc_memory
  read_head : List dnc_read_head
  write_head : List dnc_write_head
  controller : Ptr deeplearn
deriving DecidableEq

/-- Modelled from the spec: oracle for the external Controller network:
the indeterminate contents of the freshly `malloc`ed `deeplearn` struct,
and the status `deeplearn_init` will return. -/
structure ControllerOracle where
  uninit : deeplearn
  init_status : ℕ

/-- Modelled from the spec: `deeplearn_init` of the external Controller
network (§6 `controllerInit`): records the requested interface widths and
layer shape in the struct and returns the oracle status. -/
def deeplearn_init (co : ControllerOracle)
    (no_of_inputs no_of_hiddens hidden_layers no_of_outputs : ℕ) :
    ℕ × deeplearn :=
  (co.init_status, ⟨no_of_inputs, no_of_hiddens, hidden_layers, no_of_outputs⟩)

/-! ## Memory bank allocation (`deeplearn_dnc_init_memory`) -/

/-- The allocation loop of `deeplearn_dnc_init_memory`: starting at heap
allocation `n`, allocate `k` address vectors of `width` floats each.  On the
first failing `malloc` the loop returns 2 immediately; the failing slot has
just been assigned NULL and the remaining slots of the freshly `malloc`ed
pointer array still hold indeterminate pointers. Returns
(status, next allocation index, array contents). -/
def deeplearn_dnc_alloc_vectors (A : Allocator) (width : ℕ) :
    ℕ → ℕ → ℕ × ℕ × List (Ptr (List ℚ))
  | n, 0 => (0, n, [])
  | n, k + 1 =>
    match fmalloc A n width with
    | .null => (2, n + 1, Ptr.null :: List.replicate k Ptr.garbage)
    | p =>
      let r := deeplearn_dnc_alloc_vectors A width (n + 1) k
      (r.1, r.2.1, p :: r.2.2)

/-- Embedding of `deeplearn_dnc_init_memory`: round `memory_size` down to a multiple of
the usage block size, store size and width, allocate the pointer array
(returning 1 on failure) and then every address vector (returning 2 on the
first failure). `n` is the index of the next heap allocation. -/
def deeplearn_dnc_init_memory (A : Allocator) (n : ℕ) (s : deeplearn_dnc)
    (memory_size memory_width : ℕ) : ℕ × ℕ × deeplearn_dnc :=
  let size := memory_size / DEEPLEARNDNC_USAGE_BLOCK_SIZE *
    DEEPLEARNDNC_USAGE_BLOCK_SIZE
  let s1 : deeplearn_dnc :=
    { s with memory := { s.memory with size := size, width := memory_width } }
  match pmalloc A n size with
  | .null =>
    (1, n + 1, { s1 with memory := { s1.memory with address := Ptr.null } })
  | _ =>
    let r := deeplearn_dnc_alloc_vectors A memory_width (n + 1) size
    (r.1, r.2.1, { s1 with memory := { s1.memory with address := Ptr.valid r.2.2 } })

/-! ## Usage tracker allocation (`deeplearn_dnc_init_memory_usage`) -/

/-- The temporal-matrix allocation loop of `deeplearn_dnc_init_memory_usage`:
walk the in-struct array of `READ_HEADS + WRITE_HEADS` temporal pointers,
allocating a `musage * musage` matrix for each.  On the first failing
`malloc` the loop returns 2; the failing slot has been assigned NULL and the
remaining slots keep their previous contents. -/
def deeplearn_dnc_alloc_temporals (A : Allocator) (musage : ℕ) :
    ℕ → List (Ptr (List ℚ)) → ℕ × ℕ × List (Ptr (List ℚ))
  | n, [] => (0, n, [])
  | n, _ :: rest =>
    match fmalloc A n (musage * musage) with
    | .null => (2, n + 1, Ptr.null :: rest)
    | p =>
      let r := deeplearn_dnc_alloc_temporals A musage (n + 1) rest
      (r.1, r.2.1, p :: r.2.2)

/-- Embedding of `deeplearn_dnc_init_memory_usage`: the usage array is downsampled by the
block size; allocate it (returning 1 on failure) and then one temporal
matrix per head (returning 2 on the first failure). -/
def deeplearn_dnc_init_memory_usage (A : Allocator) (n : ℕ)
    (s : deeplearn_dnc) : ℕ × ℕ × deeplearn_dnc :=
  let musage := s.memory.size / DEEPLEARNDNC_USAGE_BLOCK_SIZE
  match fmalloc A n musage with
  | .null => (1, n + 1, { s with memory := { s.memory with usage := Ptr.null } })
  | u =>
    let r := deeplearn_dnc_alloc_temporals A musage (n + 1) s.memory.usage_temporal
    (r.1, r.2.1,
      { s with memory := { s.memory with usage := u, usage_temporal := r.2.2 } })

/-! ## Head allocation (`deeplearn_dnc_init_heads`) -/

/-- The read-head loop of `deeplearn_dnc_init_heads`: allocate each key
vector, returning 1 on the first failure (the failing key has been assigned
NULL, later heads keep their previous contents). -/
def deeplearn_dnc_alloc_read_heads (A : Allocator) (width : ℕ) :
    ℕ → List dnc_read_head → ℕ × ℕ × List dnc_read_head
  | n, [] => (0, n, [])
  | n, _ :: rest =>
    match fmalloc A n width with
    | .null => (1, n + 1, ⟨Ptr.null⟩ :: rest)
    | p =>
      let r := deeplearn_dnc_alloc_read_heads A width (n + 1) rest
      (r.1, r.2.1, ⟨p⟩ :: r.2.2)

/-- The write-head loop of `deeplearn_dnc_init_heads`: allocate write, erase
and key vectors for each head, returning 2, 3 or 4 respectively on the first
failure (the failing vector has been assigned NULL; vectors of the same head
allocated earlier keep their new values, everything later keeps its previous
contents). -/
def deeplearn_dnc_alloc_write_heads (A : Allocator) (width : ℕ) :
    ℕ → List dnc_write_head → ℕ × ℕ × List dnc_write_head
  | n, [] => (0, n, [])
  | n, h :: rest =>
    match fmalloc A n width with
    | .null => (2, n + 1, { h with write := Ptr.null } :: rest)
    | w =>
      match fmalloc A (n + 1) width with
      | .null => (3, n + 2, { h with write := w, erase := Ptr.null } :: rest)
      | e =>
        match fmalloc A (n + 2) width with
        | .null => (4, n + 3, { write := w, erase := e, key := Ptr.null } :: rest)
        | k =>
          let r := deeplearn_dnc_alloc_write_heads A width (n + 3) rest
          (r.1, r.2.1, (⟨w, e, k⟩ : dnc_write_head) :: r.2.2)

/-- Embedding of `deeplearn_dnc_init_heads`: allocate all read-head keys, then all
write-head vectors, aborting at the first failure. -/
def deeplearn_dnc_init_heads (A : Allocator) (n : ℕ) (s : deeplearn_dnc) :
    ℕ × ℕ × deeplearn_dnc :=
  let r := deeplearn_dnc_alloc_read_heads A s.memory.width n s.read_head
  if r.1 ≠ 0 then (r.1, r.2.1, { s with read_head := r.2.2 })
  else
    let rw := deeplearn_dnc_alloc_write_heads A s.memory.width r.2.1 s.write_head
    (rw.1, rw.2.1, { s with read_head := r.2.2, write_head := rw.2.2 })

/-! ## Full initialisation (`deeplearn_dnc_init`) -/

/-- The state after the first statements of `deeplearn_dnc_init`: the I/O
widths are recorded and the Controller struct has been `malloc`ed (its
contents indeterminate, modelled by the oracle's `uninit`). -/
def deeplearn_dnc_init_stage0 (co : ControllerOracle) (s₀ : deeplearn_dnc)
    (ni no : ℕ) : deeplearn_dnc :=
  { s₀ with no_of_inputs := ni, no_of_outputs := no,
            controller := Ptr.valid co.uninit }

/-- Result of the memory-bank phase of `deeplearn_dnc_init` (heap
allocation 0 was the Controller struct, so the bank starts at allocation 1). -/
def deeplearn_dnc_init_mem_stage (A : Allocator) (co : ControllerOracle)
    (s₀ : deeplearn_dnc) (ms mw ni no : ℕ) : ℕ × ℕ × deeplearn_dnc :=
  deeplearn_dnc_init_memory A 1 (deeplearn_dnc_init_stage0 co s₀ ni no) ms mw

/-- Result of the usage-tracker phase of `deeplearn_dnc_init`. -/
def deeplearn_dnc_init_usage_stage (A : Allocator) (co : ControllerOracle)
    (s₀ : deeplearn_dnc) (ms mw ni no : ℕ) : ℕ × ℕ × deeplearn_dnc :=
  deeplearn_dnc_init_memory_usage A
    (deeplearn_dnc_init_mem_stage A co s₀ ms mw ni no).2.1
    (deeplearn_dnc_init_mem_stage A co s₀ ms mw ni no).2.2

/-- Result of the heads phase of `deeplearn_dnc_init`. -/
def deeplearn_dnc_init_heads_stage (A : Allocator) (co : ControllerOracle)
    (s₀ : deeplearn_dnc) (ms mw ni no : ℕ) : ℕ × ℕ × deeplearn_dnc :=
  deeplearn_dnc_init_heads A
    (deeplearn_dnc_init_usage_stage A co s₀ ms mw ni no).2.1
    (deeplearn_dnc_init_usage_stage A co s₀ ms mw ni no).2.2

/-- Embedding of `deeplearn_dnc_init`: compute the controller interface widths, record the
I/O widths, `malloc` the Controller struct (1000 on failure), then run the
memory-bank (2000 + r), usage-tracker (3000 + r), heads (4000 + r) and
Controller-network (5000 + r) phases, aborting at the first failure and
returning 0 only if all succeed.  Nothing is freed on failure. -/
def deeplearn_dnc_init (cfg : DncConfig) (A : Allocator)
    (co : ControllerOracle) (s₀ : deeplearn_dnc)
    (ms mw ni nh hl no : ℕ) : ℕ × deeplearn_dnc :=
  if A.ok 0 then
    if (deeplearn_dnc_init_mem_stage A co s₀ ms mw ni no).1 ≠ 0 then
      (2000 + (deeplearn_dnc_init_mem_stage A co s₀ ms mw ni no).1,
       (deeplearn_dnc_init_mem_stage A co s₀ ms mw ni no).2.2)
    else if (deeplearn_dnc_init_usage_stage A co s₀ ms mw ni no).1 ≠ 0 then
      (3000 + (deeplearn_dnc_init_usage_stage A co s₀ ms mw ni no).1,
       (deeplearn_dnc_init_usage_stage A co s₀ ms mw ni no).2.2)
    else if (deeplearn_dnc_init_heads_stage A co s₀ ms mw ni no).1 ≠ 0 then
      (4000 + (deeplearn_dnc_init_heads_stage A co s₀ ms mw ni no).1,
       (deeplearn_dnc_init_heads_stage A co s₀ ms mw ni no).2.2)
    else if (deeplearn_init co (ni + mw * cfg.READ_HEADS) nh hl
        (no + mw * cfg.WRITE_HEADS + (mw + 3) * cfg.READ_HEADS)).1 ≠ 0 then
      (5000 + (deeplearn_init co (ni + mw * cfg.READ_HEADS) nh hl
          (no + mw * cfg.WRITE_HEADS + (mw + 3) * cfg.READ_HEADS)).1,
       { (deeplearn_dnc_init_heads_stage A co s₀ ms mw ni no).2.2 with
           controller := Ptr.valid (deeplearn_init co (ni + mw * cfg.READ_HEADS)
             nh hl (no + mw * cfg.WRITE_HEADS + (mw + 3) * cfg.READ_HEADS)).2 })
    else
      (0,
       { (deeplearn_dnc_init_heads_stage A co s₀ ms mw ni no).2.2 with
           controller := Ptr.valid (deeplearn_init co (ni + mw * cfg.READ_HEADS)
             nh hl (no + mw * cfg.WRITE_HEADS + (mw + 3) * cfg.READ_HEADS)).2 })
  else (1000, { s₀ with no_of_inputs := ni, no_of_outputs := no,
                        controller := Ptr.null })

/-! ## Clearing (`deeplearn_dnc_clear_memory`) -/

/-- Effect of `memset(address[i], 0, width * sizeof(float))` on one address
vector: the first `width` floats of the allocated buffer are zeroed (buffers
allocated by this module have length exactly `width`); NULL or indeterminate
pointers are left alone (dereferencing them is undefined behaviour, outside
the model). -/
def clearSlot (width : ℕ) : Ptr (List ℚ) → Ptr (List ℚ)
  | .valid v => .valid (List.replicate (min width v.length) (0 : ℚ) ++ v.drop width)
  | p => p

/-- Embedding of `deeplearn_dnc_clear_memory`, exactly as the source has it:
* every address vector is zeroed in place (`memset` of `width` floats);
* the usage buffer is fully zeroed (the source's `memset` length is
  `memory_usage_size * sizeof(float*)`, which covers at least the whole
  `memory_usage_size`-float buffer; writes past the buffer are heap
  corruption outside the model);
* the third `memset` targets `learner->memory.usage_temporal` itself — the
  in-struct array of matrix pointers — zeroing
  `memory_usage_size^2 * sizeof(float*)` bytes, i.e. NULLing the first
  `min(memory_usage_size^2, READ_HEADS + WRITE_HEADS)` pointers (writes past
  the array corrupt adjacent struct fields, outside the model).  The matrix
  elements themselves are never touched. -/
def deeplearn_dnc_clear_memory (s : deeplearn_dnc) : deeplearn_dnc :=
  let musage := s.memory.size / DEEPLEARNDNC_USAGE_BLOCK_SIZE
  let k := min (musage * musage) s.memory.usage_temporal.length
  { s with memory :=
    { s.memory with
        address := s.memory.address.map (fun l =>
          (l.take s.memory.size).map (clearSlot s.memory.width) ++
            l.drop s.memory.size),
        usage := s.memory.usage.map (fun v => List.replicate v.length (0 : ℚ)),
        usage_temporal :=
          List.replicate k (Ptr.null) ++ s.memory.usage_temporal.drop k } }

/-! ## Feed forward, update, head placeholders, pass-throughs -/

/-- Embedding of `deeplearn_dnc_update_read_heads`: an empty function body in the source,
hence the identity on the DNC state. -/
def deeplearn_dnc_update_read_heads (s : deeplearn_dnc) : deeplearn_dnc := s

/-- Embedding of `deeplearn_dnc_update_write_heads`: an empty function body in the source,
hence the identity on the DNC state. -/
def deeplearn_dnc_update_write_heads (s : deeplearn_dnc) : deeplearn_dnc := s

/-- Modelled from the spec: `deeplearn_feed_forward` of the external
Controller network, an opaque transformation `F` of the controller state. -/
def deeplearn_feed_forward (F : deeplearn → deeplearn) (c : Ptr deeplearn) :
    Ptr deeplearn :=
  c.map F

/-- Embedding of `deeplearn_dnc_feed_forward`: update the read heads (a no-op), then run
the Controller feed-forward pass. -/
def deeplearn_dnc_feed_forward (F : deeplearn → deeplearn)
    (s : deeplearn_dnc) : deeplearn_dnc :=
  let s1 := deeplearn_dnc_update_read_heads s
  { s1 with controller := deeplearn_feed_forward F s1.controller }

/-- Embedding of `deeplearn_dnc_update`: delegates the learning step to the external
Controller network (an opaque transformation `F` of the controller state). -/
def deeplearn_dnc_update (F : deeplearn → deeplearn) (s : deeplearn_dnc) :
    deeplearn_dnc :=
  { s with controller := s.controller.map F }

/-- Every other public operation of the module (set/get inputs, outputs,
class, learning rate, dropouts, error thresholds, continuous update, …) is a
pure delegation `deeplearn_X(learner->controller, args)`; each is modelled by
an opaque transformation `G` of the controller state. -/
def deeplearn_dnc_passthrough (G : deeplearn → deeplearn) (s : deeplearn_dnc) :
    deeplearn_dnc :=
  { s with controller := s.controller.map G }

/-! ## Releasing (`deeplearn_dnc_free`) -/

/-- The four subsystems named by the release order. -/
inductive Subsys where
  | bank : Subsys
  | usage : Subsys
  | heads : Subsys
  | ctrl : Subsys
deriving DecidableEq

/-- Position of a subsystem in the order the source's `deeplearn_dnc_free`
visits them. -/
def subsysRank : Subsys → ℕ
  | .bank => 0
  | .usage => 1
  | .heads => 2
  | .ctrl => 3

/-- Trace of `free` calls made by `deeplearn_dnc_free_memory`: one per
address vector (the loop runs over `memory.size` slots) and one for the
pointer array. -/
def deeplearn_dnc_free_memory_trace (s : deeplearn_dnc) : List Subsys :=
  List.replicate s.memory.size Subsys.bank ++ [Subsys.bank]

/-- Trace of `free` calls made by `deeplearn_dnc_free_memory_usage`: the
usage vector, then one temporal matrix per head. -/
def deeplearn_dnc_free_memory_usage_trace (cfg : DncConfig) : List Subsys :=
  Subsys.usage ::
    List.replicate (cfg.READ_HEADS + cfg.WRITE_HEADS) Subsys.usage

/-- Trace of `free` calls made by `deeplearn_dnc_free_heads`: one per
read-head key, then three per write head (write, erase, key). -/
def deeplearn_dnc_free_heads_trace (cfg : DncConfig) : List Subsys :=
  List.replicate cfg.READ_HEADS Subsys.heads ++
    List.replicate (cfg.WRITE_HEADS * 3) Subsys.heads

/-- Modelled from the spec: `deeplearn_free` of the external Controller
network releases the controller; a single release event. -/
def deeplearn_free_trace : List Subsys := [Subsys.ctrl]

/-- Trace of release events of `deeplearn_dnc_free`, in the order the source
makes the calls: `deeplearn_dnc_free_memory`, `deeplearn_dnc_free_memory_usage`,
`deeplearn_dnc_free_heads`, `deeplearn_free`. -/
def deeplearn_dnc_free_trace (cfg : DncConfig) (s : deeplearn_dnc) :
    List Subsys :=
  deeplearn_dnc_free_memory_trace s ++
    deeplearn_dnc_free_memory_usage_trace cfg ++
      deeplearn_dnc_free_heads_trace cfg ++ deeplearn_free_trace

/-- Safety of `deeplearn_dnc_free_memory`: the source loops
`free(learner->memory.address[i])` for every `i < memory.size` and then
frees the array itself.  This is free of undefined behaviour exactly when
no pointer it passes to `free` (and no array slot it reads) is
indeterminate: `free` on NULL is a no-op, `free` on an indeterminate
pointer is undefined behaviour, and if the array pointer itself is NULL the
loop must not run (it would dereference NULL), which requires
`memory.size = 0`. -/
def deeplearn_dnc_free_memory_safe (s : deeplearn_dnc) : Bool :=
  match s.memory.address with
  | .valid l =>
    decide (s.memory.size ≤ l.length) &&
      (l.take s.memory.size).all (fun p => !p.isGarbage)
  | .null => s.memory.size == 0
  | .garbage => false

/-- All scalars of all address vectors visited by the clear/free loops read
as exactly zero: the array is allocated and each of the first `memory.size`
slots is an allocated, all-zero vector. -/
def dnc_memory_addresses_zeroed (s : deeplearn_dnc) : Bool :=
  match s.memory.address with
  | .valid l =>
    (l.take s.memory.size).all (fun p =>
      match p with
      | .valid v => v.all (fun x => decide (x = 0))
      | _ => false)
  | _ => false

/-! ## Concrete sample objects used to instantiate theorems -/

/-- A sample head-count configuration: one read head, one write head. -/
def sampleConfig : DncConfig := ⟨1, 1⟩

/-- A sample Controller oracle whose initialisation succeeds. -/
def sampleOracle : ControllerOracle := ⟨⟨0, 0, 0, 0⟩, 0⟩

/-- A sample Controller oracle whose initialisation fails with status 9. -/
def sampleOracleFail : ControllerOracle := ⟨⟨0, 0, 0, 0⟩, 9⟩

/-- A caller-supplied `deeplearn_dnc` struct before any initialisation: the
in-struct arrays have the lengths dictated by `sampleConfig` and every
pointer field holds an indeterminate value. -/
def sampleUninit : deeplearn_dnc :=
  { no_of_inputs := 0, no_of_outputs := 0,
    memory := { size := 0, width := 0, address := Ptr.garbage,
                usage := Ptr.garbage,
                usage_temporal := [Ptr.garbage, Ptr.garbage] },
    read_head := [⟨Ptr.garbage⟩],
    write_head := [⟨Ptr.garbage, Ptr.garbage, Ptr.garbage⟩],
    controller := Ptr.garbage }

/-- A heap on which every `malloc` succeeds and fresh buffers happen to
contain zeros. -/
def allocAll : Allocator := ⟨fun _ => true, fun _ _ => 0⟩

/-- A heap on which every `malloc` succeeds and fresh buffers contain the
(non-zero) residue value 7. -/
def allocSevens : Allocator := ⟨fun _ => true, fun _ _ => 7⟩

/-- A heap on which every `malloc` fails. -/
def allocNone : Allocator := ⟨fun _ => false, fun _ _ => 0⟩

/-- A heap on which exactly the 7th `malloc` of the run (index 6: the
Controller struct is allocation 0, the bank's pointer array allocation 1,
and the bank vectors start at allocation 2, so index 6 is the 5th bank
vector) fails. -/
def allocFailAt6 : Allocator := ⟨fun n => !(n == 6), fun _ _ => 0⟩

/-! ## Helper lemmas about clearing -/

lemma clearSlot_idem (w : ℕ) (p : Ptr (List ℚ)) :
    clearSlot w (clearSlot w p) = clearSlot w p := by
  cases p with
  | null => rfl
  | garbage => rfl
  | valid v =>
    simp only [clearSlot]
    rcases le_or_lt w v.length with h | h
    · rw [min_eq_left h]
      have h1 : (List.replicate w (0 : ℚ) ++ v.drop w).length = v.length := by
        simp; omega
      rw [h1, min_eq_left h, List.drop_left' (by simp)]
    · have hle : v.length ≤ w := le_of_lt h
      rw [min_eq_right hle, List.drop_eq_nil_of_le hle, List.append_nil,
        List.length_replicate, min_eq_right hle,
        List.drop_eq_nil_of_le (by simp [hle]), List.append_nil]

lemma clearVecs_idem (size w : ℕ) (l : List (Ptr (List ℚ))) :
    ((((l.take size).map (clearSlot w) ++ l.drop size).take size).map (clearSlot w) ++
        ((l.take size).map (clearSlot w) ++ l.drop size).drop size) =
      (l.take size).map (clearSlot w) ++ l.drop size := by
  rcases le_or_lt size l.length with h | h
  · have hxs : ((l.take size).map (clearSlot w)).length = size := by
      simp [min_eq_left h]
    rw [List.take_left' hxs, List.drop_left' hxs]
    congr 1
    rw [List.map_map]
    exact List.map_congr_left (fun p _ => clearSlot_idem w p)
  · have hle : l.length ≤ size := le_of_lt h
    rw [List.take_of_length_le hle, List.drop_eq_nil_of_le hle, List.append_nil,
      List.take_of_length_le (by simp [hle]),
      List.drop_eq_nil_of_le (by simp [hle]), List.append_nil, List.map_map]
    exact List.map_congr_left (fun p _ => clearSlot_idem w p)

lemma nullFirst_idem (m : ℕ) (t : List (Ptr (List ℚ))) :
    (List.replicate
        (min m (List.replicate (min m t.length) (Ptr.null (α := List ℚ)) ++
          t.drop (min m t.length)).length) (Ptr.null (α := List ℚ)) ++
      (List.replicate (min m t.length) (Ptr.null (α := List ℚ)) ++
        t.drop (min m t.length)).drop
          (min m (List.replicate (min m t.length) (Ptr.null (α := List ℚ)) ++
            t.drop (min m t.length)).length)) =
      List.replicate (min m t.length) (Ptr.null (α := List ℚ)) ++
        t.drop (min m t.length) := by
  have hk : min m t.length ≤ t.length := min_le_right m t.length
  have h1 : (List.replicate (min m t.length) (Ptr.null (α := List ℚ)) ++
      t.drop (min m t.length)).length = t.length := by
    simp
  rw [h1]
  congr 1
  exact List.drop_left' (by simp)

/-- Claim C9: `deeplearn_dnc_clear_memory` is idempotent: for every DNC
state (in particular every successfully initialised one and any prior
non-zero memory contents), clearing twice yields exactly the same state as
clearing once. -/
theorem spec_C9_clear_memory_idempotent (s : deeplearn_dnc) :
    deeplearn_dnc_clear_memory (deeplearn_dnc_clear_memory s) =
      deeplearn_dnc_clear_memory s := by
  simp only [deeplearn_dnc_clear_memory]
  congr 1
  congr 1
  · cases s.memory.address with
    | null => rfl
    | garbage => rfl
    | valid l =>
      simp only [Ptr.map]
      congr 1
      exact clearVecs_idem s.memory.size s.memory.width l
  · cases s.memory.usage with
    | null => rfl
    | garbage => rfl
    | valid v => simp [Ptr.map]
  · exact nullFirst_idem _ s.memory.usage_temporal

/-- Claim C7: `deeplearn_dnc_update_read_heads` and
`deeplearn_dnc_update_write_heads` leave the DNC state unchanged (no-op
placeholders), so `deeplearn_dnc_feed_forward` equals the Controller
feed-forward alone: the memory bank (with usage tracker) and all head
vectors are unchanged by it, and this persists over any sequence of
feed-forward calls. -/
theorem spec_C7_head_updates_are_no_ops (F : deeplearn → deeplearn)
    (s : deeplearn_dnc) :
    deeplearn_dnc_update_read_heads s = s ∧
    deeplearn_dnc_update_write_heads s = s ∧
    deeplearn_dnc_feed_forward F s =
      { s with controller := deeplearn_feed_forward F s.controller } ∧
    (deeplearn_dnc_feed_forward F s).memory = s.memory ∧
    (deeplearn_dnc_feed_forward F s).read_head = s.read_head ∧
    (deeplearn_dnc_feed_forward F s).write_head = s.write_head ∧
    ∀ Fs : List (deeplearn → deeplearn),
      (Fs.foldl (fun t G => deeplearn_dnc_feed_forward G t) s).memory = s.memory ∧
      (Fs.foldl (fun t G => deeplearn_dnc_feed_forward G t) s).read_head = s.read_head ∧
      (Fs.foldl (fun t G => deeplearn_dnc_feed_forward G t) s).write_head = s.write_head := by
  refine ⟨rfl, rfl, rfl, rfl, rfl, rfl, ?_⟩
  intro Fs
  induction Fs generalizing s with
  | nil => exact ⟨rfl, rfl, rfl⟩
  | cons G Fs ih =>
    simpa using ih (deeplearn_dnc_feed_forward G s)

/-- Claim C10: `memory.size` and `memory.width` are invariant under every
public operation other than a new init: `deeplearn_dnc_clear_memory`,
`deeplearn_dnc_feed_forward`, `deeplearn_dnc_update`,
`deeplearn_dnc_update_read_heads`, `deeplearn_dnc_update_write_heads` and
every Controller pass-through all preserve them. -/
theorem spec_C10_size_width_invariant (F G : deeplearn → deeplearn)
    (s : deeplearn_dnc) :
    (deeplearn_dnc_clear_memory s).memory.size = s.memory.size ∧
    (deeplearn_dnc_clear_memory s).memory.width = s.memory.width ∧
    (deeplearn_dnc_feed_forward F s).memory.size = s.memory.size ∧
    (deeplearn_dnc_feed_forward F s).memory.width = s.memory.width ∧
    (deeplearn_dnc_update F s).memory.size = s.memory.size ∧
    (deeplearn_dnc_update F s).memory.width = s.memory.width ∧
    (deeplearn_dnc_update_read_heads s).memory.size = s.memory.size ∧
    (deeplearn_dnc_update_read_heads s).memory.width = s.memory.width ∧
    (deeplearn_dnc_update_write_heads s).memory.size = s.memory.size ∧
    (deeplearn_dnc_update_write_heads s).memory.width = s.memory.width ∧
    (deeplearn_dnc_passthrough G s).memory.size = s.memory.size ∧
    (deeplearn_dnc_passthrough G s).memory.width = s.memory.width :=
  ⟨rfl, rfl, rfl, rfl, rfl, rfl, rfl, rfl, rfl, rfl, rfl, rfl⟩

/-! ## Helper lemmas about initialisation -/

lemma deeplearn_dnc_alloc_vectors_fst (A : Allocator) (w : ℕ) :
    ∀ n k, (deeplearn_dnc_alloc_vectors A w n k).1 = 0 ∨
      (deeplearn_dnc_alloc_vectors A w n k).1 = 2 := by
  intro n k
  induction k generalizing n with
  | zero => exact Or.inl rfl
  | succ k ih =>
    simp only [deeplearn_dnc_alloc_vectors]
    by_cases hA : A.ok n <;> simp [fmalloc, hA]
    exact ih (n + 1)

lemma deeplearn_dnc_alloc_vectors_len (A : Allocator) (w : ℕ) :
    ∀ n k, (deeplearn_dnc_alloc_vectors A w n k).2.2.length = k := by
  intro n k
  induction k generalizing n with
  | zero => rfl
  | succ k ih =>
    simp only [deeplearn_dnc_alloc_vectors]
    by_cases hA : A.ok n <;> simp [fmalloc, hA]
    exact ih (n + 1)

lemma deeplearn_dnc_alloc_vectors_succ (A : Allocator) (w : ℕ) :
    ∀ n k, (deeplearn_dnc_alloc_vectors A w n k).1 = 0 →
      ∀ p ∈ (deeplearn_dnc_alloc_vectors A w n k).2.2,
        ∃ v, p = Ptr.valid v ∧ v.length = w := by
  intro n k
  induction k generalizing n with
  | zero => intro _ p hp; simp [deeplearn_dnc_alloc_vectors] at hp
  | succ k ih =>
    simp only [deeplearn_dnc_alloc_vectors]
    by_cases hA : A.ok n <;> simp [fmalloc, hA]
    intro h p hp
    exact ih (n + 1) h p hp

lemma deeplearn_dnc_alloc_temporals_fst (A : Allocator) (m : ℕ) :
    ∀ n t, (deeplearn_dnc_alloc_temporals A m n t).1 = 0 ∨
      (deeplearn_dnc_alloc_temporals A m n t).1 = 2 := by
  intro n t
  induction t generalizing n with
  | nil => exact Or.inl rfl
  | cons x t ih =>
    simp only [deeplearn_dnc_alloc_temporals]
    by_cases hA : A.ok n <;> simp [fmalloc, hA]
    exact ih (n + 1)

lemma deeplearn_dnc_alloc_read_heads_fst (A : Allocator) (w : ℕ) :
    ∀ n t, (deeplearn_dnc_alloc_read_heads A w n t).1 = 0 ∨
      (deeplearn_dnc_alloc_read_heads A w n t).1 = 1 := by
  intro n t
  induction t generalizing n with
  | nil => exact Or.inl rfl
  | cons x t ih =>
    simp only [deeplearn_dnc_alloc_read_heads]
    by_cases hA : A.ok n <;> simp [fmalloc, hA]
    exact ih (n + 1)

lemma deeplearn_dnc_alloc_write_heads_fst (A : Allocator) (w : ℕ) :
    ∀ n t, (deeplearn_dnc_alloc_write_heads A w n t).1 = 0 ∨
      (deeplearn_dnc_alloc_write_heads A w n t).1 = 2 ∨
      (deeplearn_dnc_alloc_write_heads A w n t).1 = 3 ∨
      (deeplearn_dnc_alloc_write_heads A w n t).1 = 4 := by
  intro n t
  induction t generalizing n with
  | nil => exact Or.inl rfl
  | cons x t ih =>
    simp only [deeplearn_dnc_alloc_write_heads]
    by_cases h1 : A.ok n <;> simp [fmalloc, h1]
    by_cases h2 : A.ok (n + 1) <;> simp [fmalloc, h2]
    by_cases h3 : A.ok (n + 2) <;> simp [fmalloc, h3]
    exact ih (n + 3)

lemma deeplearn_dnc_init_memory_fst (A : Allocator) (n : ℕ)
    (s : deeplearn_dnc) (ms mw : ℕ) :
    (deeplearn_dnc_init_memory A n s ms mw).1 = 0 ∨
    (deeplearn_dnc_init_memory A n s ms mw).1 = 1 ∨
    (deeplearn_dnc_init_memory A n s ms mw).1 = 2 := by
  unfold deeplearn_dnc_init_memory
  by_cases hA : A.ok n <;> simp [pmalloc, hA]
  rcases deeplearn_dnc_alloc_vectors_fst A mw (n + 1)
    (ms / DEEPLEARNDNC_USAGE_BLOCK_SIZE * DEEPLEARNDNC_USAGE_BLOCK_SIZE) with h | h
  · exact Or.inl h
  · exact Or.inr (Or.inr h)

lemma deeplearn_dnc_init_memory_usage_fst (A : Allocator) (n : ℕ)
    (s : deeplearn_dnc) :
    (deeplearn_dnc_init_memory_usage A n s).1 = 0 ∨
    (deeplearn_dnc_init_memory_usage A n s).1 = 1 ∨
    (deeplearn_dnc_init_memory_usage A n s).1 = 2 := by
  unfold deeplearn_dnc_init_memory_usage
  by_cases hA : A.ok n <;> simp [fmalloc, hA]
  rcases deeplearn_dnc_alloc_temporals_fst A
    (s.memory.size / DEEPLEARNDNC_USAGE_BLOCK_SIZE) (n + 1)
    s.memory.usage_temporal with h | h
  · exact Or.inl h
  · exact Or.inr (Or.inr h)

lemma deeplearn_dnc_init_heads_fst (A : Allocator) (n : ℕ)
    (s : deeplearn_dnc) :
    (deeplearn_dnc_init_heads A n s).1 ≤ 4 := by
  simp only [deeplearn_dnc_init_heads]
  split
  · rcases deeplearn_dnc_alloc_read_heads_fst A s.memory.width n s.read_head
      with h | h <;> simp [h]
  · rcases deeplearn_dnc_alloc_write_heads_fst A s.memory.width
      (deeplearn_dnc_alloc_read_heads A s.memory.width n s.read_head).2.1
      s.write_head with h | h | h | h <;> simp [h]

lemma deeplearn_dnc_init_memory_state (A : Allocator) (n : ℕ)
    (s : deeplearn_dnc) (ms mw : ℕ) :
    (deeplearn_dnc_init_memory A n s ms mw).2.2.memory.size =
      ms / DEEPLEARNDNC_USAGE_BLOCK_SIZE * DEEPLEARNDNC_USAGE_BLOCK_SIZE ∧
    (deeplearn_dnc_init_memory A n s ms mw).2.2.memory.width = mw ∧
    (deeplearn_dnc_init_memory A n s ms mw).2.2.memory.usage = s.memory.usage ∧
    (deeplearn_dnc_init_memory A n s ms mw).2.2.memory.usage_temporal =
      s.memory.usage_temporal ∧
    (deeplearn_dnc_init_memory A n s ms mw).2.2.controller = s.controller ∧
    (deeplearn_dnc_init_memory A n s ms mw).2.2.read_head = s.read_head ∧
    (deeplearn_dnc_init_memory A n s ms mw).2.2.write_head = s.write_head ∧
    (deeplearn_dnc_init_memory A n s ms mw).2.2.no_of_inputs = s.no_of_inputs ∧
    (deeplearn_dnc_init_memory A n s ms mw).2.2.no_of_outputs = s.no_of_outputs := by
  unfold deeplearn_dnc_init_memory
  by_cases hA : A.ok n <;> simp [pmalloc, hA]

lemma deeplearn_dnc_init_memory_usage_state (A : Allocator) (n : ℕ)
    (s : deeplearn_dnc) :
    (deeplearn_dnc_init_memory_usage A n s).2.2.memory.size = s.memory.size ∧
    (deeplearn_dnc_init_memory_usage A n s).2.2.memory.width = s.memory.width ∧
    (deeplearn_dnc_init_memory_usage A n s).2.2.memory.address =
      s.memory.address ∧
    (deeplearn_dnc_init_memory_usage A n s).2.2.controller = s.controller ∧
    (deeplearn_dnc_init_memory_usage A n s).2.2.read_head = s.read_head ∧
    (deeplearn_dnc_init_memory_usage A n s).2.2.write_head = s.write_head ∧
    (deeplearn_dnc_init_memory_usage A n s).2.2.no_of_inputs = s.no_of_inputs ∧
    (deeplearn_dnc_init_memory_usage A n s).2.2.no_of_outputs = s.no_of_outputs := by
  unfold deeplearn_dnc_init_memory_usage
  by_cases hA : A.ok n <;> simp [fmalloc, hA]

lemma deeplearn_dnc_init_heads_state (A : Allocator) (n : ℕ)
    (s : deeplearn_dnc) :
    (deeplearn_dnc_init_heads A n s).2.2.memory = s.memory ∧
    (deeplearn_dnc_init_heads A n s).2.2.controller = s.controller ∧
    (deeplearn_dnc_init_heads A n s).2.2.no_of_inputs = s.no_of_inputs ∧
    (deeplearn_dnc_init_heads A n s).2.2.no_of_outputs = s.no_of_outputs := by
  simp only [deeplearn_dnc_init_heads]
  split <;> simp

lemma deeplearn_dnc_init_memory_succ (A : Allocator) (n : ℕ)
    (s : deeplearn_dnc) (ms mw : ℕ)
    (h : (deeplearn_dnc_init_memory A n s ms mw).1 = 0) :
    ∃ l, (deeplearn_dnc_init_memory A n s ms mw).2.2.memory.address =
        Ptr.valid l ∧
      l.length = ms / DEEPLEARNDNC_USAGE_BLOCK_SIZE *
        DEEPLEARNDNC_USAGE_BLOCK_SIZE ∧
      ∀ p ∈ l, ∃ v, p = Ptr.valid v ∧ v.length = mw := by
  unfold deeplearn_dnc_init_memory at h ⊢
  by_cases hA : A.ok n <;> simp [pmalloc, hA] at h ⊢
  exact ⟨deeplearn_dnc_alloc_vectors_len A mw _ _,
    deeplearn_dnc_alloc_vectors_succ A mw _ _ h⟩

lemma deeplearn_dnc_init_succ_cases (cfg : DncConfig) (A : Allocator)
    (co : ControllerOracle) (s₀ : deeplearn_dnc) (ms mw ni nh hl no : ℕ)
    (h : (deeplearn_dnc_init cfg A co s₀ ms mw ni nh hl no).1 = 0) :
    A.ok 0 = true ∧
    (deeplearn_dnc_init_mem_stage A co s₀ ms mw ni no).1 = 0 ∧
    (deeplearn_dnc_init_usage_stage A co s₀ ms mw ni no).1 = 0 ∧
    (deeplearn_dnc_init_heads_stage A co s₀ ms mw ni no).1 = 0 ∧
    co.init_status = 0 ∧
    (deeplearn_dnc_init cfg A co s₀ ms mw ni nh hl no).2 =
      { (deeplearn_dnc_init_heads_stage A co s₀ ms mw ni no).2.2 with
          controller := Ptr.valid ⟨ni + mw * cfg.READ_HEADS, nh, hl,
            no + mw * cfg.WRITE_HEADS + (mw + 3) * cfg.READ_HEADS⟩ } := by
  unfold deeplearn_dnc_init at h ⊢
  split_ifs at h ⊢ with h0 h1 h2 h3 h4
  · simp at h
  · simp at h
  · simp at h
  · simp [deeplearn_init] at h
  · refine ⟨h0, not_ne_iff.mp h1, not_ne_iff.mp h2, not_ne_iff.mp h3, ?_, rfl⟩
    simpa [deeplearn_init] using not_ne_iff.mp h4

/-- Claim C1: for every valid `(memory_size, memory_width)` with
`memory_size ≥ USAGE_BLOCK_SIZE`, after `deeplearn_dnc_init` succeeds,
`memory.size` is the largest multiple of `DEEPLEARNDNC_USAGE_BLOCK_SIZE`
not exceeding `memory_size`, and `memory.width` equals `memory_width`. -/
theorem spec_C1_init_size_width (cfg : DncConfig) (A : Allocator)
    (co : ControllerOracle) (s₀ : deeplearn_dnc) (ms mw ni nh hl no : ℕ)
    (hms : DEEPLEARNDNC_USAGE_BLOCK_SIZE ≤ ms)
    (h : (deeplearn_dnc_init cfg A co s₀ ms mw ni nh hl no).1 = 0) :
    (deeplearn_dnc_init cfg A co s₀ ms mw ni nh hl no).2.memory.size %
        DEEPLEARNDNC_USAGE_BLOCK_SIZE = 0 ∧
    (deeplearn_dnc_init cfg A co s₀ ms mw ni nh hl no).2.memory.size ≤ ms ∧
    (∀ m : ℕ, m % DEEPLEARNDNC_USAGE_BLOCK_SIZE = 0 → m ≤ ms →
      m ≤ (deeplearn_dnc_init cfg A co s₀ ms mw ni nh hl no).2.memory.size) ∧
    (deeplearn_dnc_init cfg A co s₀ ms mw ni nh hl no).2.memory.width = mw := by
  obtain ⟨-, -, -, -, -, hfin⟩ :=
    deeplearn_dnc_init_succ_cases cfg A co s₀ ms mw ni nh hl no h
  have hmemh : (deeplearn_dnc_init cfg A co s₀ ms mw ni nh hl no).2.memory =
      (deeplearn_dnc_init_usage_stage A co s₀ ms mw ni no).2.2.memory := by
    rw [hfin]
    show (deeplearn_dnc_init_heads_stage A co s₀ ms mw ni no).2.2.memory = _
    unfold deeplearn_dnc_init_heads_stage
    exact (deeplearn_dnc_init_heads_state A _ _).1
  have hsize : (deeplearn_dnc_init cfg A co s₀ ms mw ni nh hl no).2.memory.size =
      ms / DEEPLEARNDNC_USAGE_BLOCK_SIZE * DEEPLEARNDNC_USAGE_BLOCK_SIZE := by
    rw [hmemh]
    unfold deeplearn_dnc_init_usage_stage
    rw [(deeplearn_dnc_init_memory_usage_state A _ _).1]
    unfold deeplearn_dnc_init_mem_stage
    exact (deeplearn_dnc_init_memory_state A _ _ _ _).1
  have hwidth : (deeplearn_dnc_init cfg A co s₀ ms mw ni nh hl no).2.memory.width = mw := by
    rw [hmemh]
    unfold deeplearn_dnc_init_usage_stage
    rw [(deeplearn_dnc_init_memory_usage_state A _ _).2.1]
    unfold deeplearn_dnc_init_mem_stage
    exact (deeplearn_dnc_init_memory_state A _ _ _ _).2.1
  have hB : DEEPLEARNDNC_USAGE_BLOCK_SIZE = 16 := rfl
  rw [hB] at hsize hms ⊢
  refine ⟨?_, ?_, ?_, hwidth⟩
  · rw [hsize]; omega
  · rw [hsize]; omega
  · intro m h1 h2
    rw [hsize]
    omega

/-- Witness for C1: `memory_size = 20` with block size 16 yields
`memory.size = 16` (never 20 or 32) and `memory.width = 3`. -/
theorem spec_C1_witness :
    DEEPLEARNDNC_USAGE_BLOCK_SIZE ≤ 20 ∧
    (deeplearn_dnc_init sampleConfig allocAll sampleOracle sampleUninit
      20 3 1 2 1 1).1 = 0 ∧
    (deeplearn_dnc_init sampleConfig allocAll sampleOracle sampleUninit
      20 3 1 2 1 1).2.memory.size = 16 ∧
    ((deeplearn_dnc_init sampleConfig allocAll sampleOracle sampleUninit
        20 3 1 2 1 1).2.memory.size % DEEPLEARNDNC_USAGE_BLOCK_SIZE = 0 ∧
      (deeplearn_dnc_init sampleConfig allocAll sampleOracle sampleUninit
        20 3 1 2 1 1).2.memory.size ≤ 20 ∧
      (∀ m : ℕ, m % DEEPLEARNDNC_USAGE_BLOCK_SIZE = 0 → m ≤ 20 →
        m ≤ (deeplearn_dnc_init sampleConfig allocAll sampleOracle sampleUninit
          20 3 1 2 1 1).2.memory.size) ∧
      (deeplearn_dnc_init sampleConfig allocAll sampleOracle sampleUninit
        20 3 1 2 1 1).2.memory.width = 3) :=
  ⟨by decide, by decide, by decide,
    spec_C1_init_size_width sampleConfig allocAll sampleOracle sampleUninit
      20 3 1 2 1 1 (by decide) (by decide)⟩

/-- Claim C4: for every valid configuration, a successful
`deeplearn_dnc_init` initialises the Controller network with input width
`no_of_inputs + memory_width * READ_HEADS` and output width
`no_of_outputs + memory_width * WRITE_HEADS + (memory_width + 3) * READ_HEADS`. -/
theorem spec_C4_controller_interface_widths (cfg : DncConfig) (A : Allocator)
    (co : ControllerOracle) (s₀ : deeplearn_dnc) (ms mw ni nh hl no : ℕ)
    (h : (deeplearn_dnc_init cfg A co s₀ ms mw ni nh hl no).1 = 0) :
    (deeplearn_dnc_init cfg A co s₀ ms mw ni nh hl no).2.controller =
      Ptr.valid
        { no_of_inputs := ni + mw * cfg.READ_HEADS,
          no_of_hiddens := nh,
          hidden_layers := hl,
          no_of_outputs := no + mw * cfg.WRITE_HEADS + (mw + 3) * cfg.READ_HEADS } := by
  obtain ⟨-, -, -, -, -, hfin⟩ :=
    deeplearn_dnc_init_succ_cases cfg A co s₀ ms mw ni nh hl no h
  rw [hfin]

/-- Witness for C4: Scenario A's shape (`memory_size = 128`,
`memory_width = 4`, 10 inputs, 20 hiddens, 1 hidden layer, 2 outputs) with
one read and one write head gives controller widths 14 and 13. -/
theorem spec_C4_witness :
    (deeplearn_dnc_init sampleConfig allocAll sampleOracle sampleUninit
      128 4 10 20 1 2).1 = 0 ∧
    (deeplearn_dnc_init sampleConfig allocAll sampleOracle sampleUninit
      128 4 10 20 1 2).2.controller =
      Ptr.valid { no_of_inputs := 14, no_of_hiddens := 20,
                  hidden_layers := 1, no_of_outputs := 13 } :=
  ⟨by decide,
    spec_C4_controller_interface_widths sampleConfig allocAll sampleOracle
      sampleUninit 128 4 10 20 1 2 (by decide)⟩

/-- Claim C3: `deeplearn_dnc_init` aborts at the first failing subsystem and
returns immediately with an error code in a numeric range unique to that
subsystem (Controller malloc 1000; memory bank 2001–2002; usage tracker
3001–3002; heads 4001–4004; Controller network 5000 + nonzero status; all
distinct from success 0), and the returned state is exactly the state the
failing phase left behind, so subsystems allocated before the failure are
not released by `init` itself. -/
theorem spec_C3_init_error_propagation (cfg : DncConfig) (A : Allocator)
    (co : ControllerOracle) (s₀ : deeplearn_dnc) (ms mw ni nh hl no : ℕ) :
    ((deeplearn_dnc_init cfg A co s₀ ms mw ni nh hl no).1 = 0 ↔
      (A.ok 0 = true ∧
       (deeplearn_dnc_init_mem_stage A co s₀ ms mw ni no).1 = 0 ∧
       (deeplearn_dnc_init_usage_stage A co s₀ ms mw ni no).1 = 0 ∧
       (deeplearn_dnc_init_heads_stage A co s₀ ms mw ni no).1 = 0 ∧
       co.init_status = 0)) ∧
    (A.ok 0 = false →
      deeplearn_dnc_init cfg A co s₀ ms mw ni nh hl no =
        (1000, { s₀ with no_of_inputs := ni, no_of_outputs := no,
                         controller := Ptr.null })) ∧
    (A.ok 0 = true →
      (deeplearn_dnc_init_mem_stage A co s₀ ms mw ni no).1 ≠ 0 →
      deeplearn_dnc_init cfg A co s₀ ms mw ni nh hl no =
        (2000 + (deeplearn_dnc_init_mem_stage A co s₀ ms mw ni no).1,
         (deeplearn_dnc_init_mem_stage A co s₀ ms mw ni no).2.2) ∧
      1 ≤ (deeplearn_dnc_init_mem_stage A co s₀ ms mw ni no).1 ∧
      (deeplearn_dnc_init_mem_stage A co s₀ ms mw ni no).1 ≤ 2 ∧
      (deeplearn_dnc_init_mem_stage A co s₀ ms mw ni no).2.2.controller =
        Ptr.valid co.uninit) ∧
    (A.ok 0 = true →
      (deeplearn_dnc_init_mem_stage A co s₀ ms mw ni no).1 = 0 →
      (deeplearn_dnc_init_usage_stage A co s₀ ms mw ni no).1 ≠ 0 →
      deeplearn_dnc_init cfg A co s₀ ms mw ni nh hl no =
        (3000 + (deeplearn_dnc_init_usage_stage A co s₀ ms mw ni no).1,
         (deeplearn_dnc_init_usage_stage A co s₀ ms mw ni no).2.2) ∧
      1 ≤ (deeplearn_dnc_init_usage_stage A co s₀ ms mw ni no).1 ∧
      (deeplearn_dnc_init_usage_stage A co s₀ ms mw ni no).1 ≤ 2 ∧
      (deeplearn_dnc_init_usage_stage A co s₀ ms mw ni no).2.2.controller =
        Ptr.valid co.uninit ∧
      (deeplearn_dnc_init_usage_stage A co s₀ ms mw ni no).2.2.memory.address =
        (deeplearn_dnc_init_mem_stage A co s₀ ms mw ni no).2.2.memory.address) ∧
    (A.ok 0 = true →
      (deeplearn_dnc_init_mem_stage A co s₀ ms mw ni no).1 = 0 →
      (deeplearn_dnc_init_usage_stage A co s₀ ms mw ni no).1 = 0 →
      (deeplearn_dnc_init_heads_stage A co s₀ ms mw ni no).1 ≠ 0 →
      deeplearn_dnc_init cfg A co s₀ ms mw ni nh hl no =
        (4000 + (deeplearn_dnc_init_heads_stage A co s₀ ms mw ni no).1,
         (deeplearn_dnc_init_heads_stage A co s₀ ms mw ni no).2.2) ∧
      1 ≤ (deeplearn_dnc_init_heads_stage A co s₀ ms mw ni no).1 ∧
      (deeplearn_dnc_init_heads_stage A co s₀ ms mw ni no).1 ≤ 4 ∧
      (deeplearn_dnc_init_heads_stage A co s₀ ms mw ni no).2.2.memory =
        (deeplearn_dnc_init_usage_stage A co s₀ ms mw ni no).2.2.memory ∧
      (deeplearn_dnc_init_heads_stage A co s₀ ms mw ni no).2.2.controller =
        Ptr.valid co.uninit) ∧
    (A.ok 0 = true →
      (deeplearn_dnc_init_mem_stage A co s₀ ms mw ni no).1 = 0 →
      (deeplearn_dnc_init_usage_stage A co s₀ ms mw ni no).1 = 0 →
      (deeplearn_dnc_init_heads_stage A co s₀ ms mw ni no).1 = 0 →
      co.init_status ≠ 0 →
      deeplearn_dnc_init cfg A co s₀ ms mw ni nh hl no =
        (5000 + co.init_status,
         { (deeplearn_dnc_init_heads_stage A co s₀ ms mw ni no).2.2 with
             controller := Ptr.valid ⟨ni + mw * cfg.READ_HEADS, nh, hl,
               no + mw * cfg.WRITE_HEADS + (mw + 3) * cfg.READ_HEADS⟩ }) ∧
      1 ≤ co.init_status) := by
  have hmemctrl : (deeplearn_dnc_init_mem_stage A co s₀ ms mw ni no).2.2.controller =
      Ptr.valid co.uninit := by
    unfold deeplearn_dnc_init_mem_stage
    rw [(deeplearn_dnc_init_memory_state A _ _ _ _).2.2.2.2.1]
    rfl
  have husagectrl : (deeplearn_dnc_init_usage_stage A co s₀ ms mw ni no).2.2.controller =
      Ptr.valid co.uninit := by
    unfold deeplearn_dnc_init_usage_stage
    rw [(deeplearn_dnc_init_memory_usage_state A _ _).2.2.2.1]
    exact hmemctrl
  have hheadsctrl : (deeplearn_dnc_init_heads_stage A co s₀ ms mw ni no).2.2.controller =
      Ptr.valid co.uninit := by
    unfold deeplearn_dnc_init_heads_stage
    rw [(deeplearn_dnc_init_heads_state A _ _).2.1]
    exact husagectrl
  refine ⟨?_, ?_, ?_, ?_, ?_, ?_⟩
  · constructor
    · intro h
      obtain ⟨h0, h1, h2, h3, h4, -⟩ :=
        deeplearn_dnc_init_succ_cases cfg A co s₀ ms mw ni nh hl no h
      exact ⟨h0, h1, h2, h3, h4⟩
    · rintro ⟨h0, h1, h2, h3, h4⟩
      unfold deeplearn_dnc_init
      rw [if_pos h0, if_neg (by simp [h1]), if_neg (by simp [h2]),
        if_neg (by simp [h3]), if_neg (by simp [deeplearn_init, h4])]
  · intro h0
    unfold deeplearn_dnc_init
    rw [if_neg (by simp [h0])]
  · intro h0 h1
    unfold deeplearn_dnc_init
    rw [if_pos h0, if_pos h1]
    refine ⟨rfl, by omega, ?_, hmemctrl⟩
    have hfst : (deeplearn_dnc_init_mem_stage A co s₀ ms mw ni no).1 = 0 ∨
        (deeplearn_dnc_init_mem_stage A co s₀ ms mw ni no).1 = 1 ∨
        (deeplearn_dnc_init_mem_stage A co s₀ ms mw ni no).1 = 2 :=
      deeplearn_dnc_init_memory_fst A 1 _ ms mw
    omega
  · intro h0 h1 h2
    unfold deeplearn_dnc_init
    rw [if_pos h0, if_neg (by simp [h1]), if_pos h2]
    refine ⟨rfl, by omega, ?_, husagectrl, ?_⟩
    · have hfst : (deeplearn_dnc_init_usage_stage A co s₀ ms mw ni no).1 = 0 ∨
          (deeplearn_dnc_init_usage_stage A co s₀ ms mw ni no).1 = 1 ∨
          (deeplearn_dnc_init_usage_stage A co s₀ ms mw ni no).1 = 2 :=
        deeplearn_dnc_init_memory_usage_fst A _ _
      omega
    · unfold deeplearn_dnc_init_usage_stage
      exact (deeplearn_dnc_init_memory_usage_state A _ _).2.2.1
  · intro h0 h1 h2 h3
    unfold deeplearn_dnc_init
    rw [if_pos h0, if_neg (by simp [h1]), if_neg (by simp [h2]), if_pos h3]
    refine ⟨rfl, by omega, ?_, ?_, hheadsctrl⟩
    · have hfst : (deeplearn_dnc_init_heads_stage A co s₀ ms mw ni no).1 ≤ 4 :=
        deeplearn_dnc_init_heads_fst A _ _
      omega
    · unfold deeplearn_dnc_init_heads_stage
      exact (deeplearn_dnc_init_heads_state A _ _).1
  · intro h0 h1 h2 h3 h4
    unfold deeplearn_dnc_init
    rw [if_pos h0, if_neg (by simp [h1]), if_neg (by simp [h2]),
      if_neg (by simp [h3]), if_pos (by simp [deeplearn_init, h4])]
    exact ⟨rfl, by omega⟩

/-- Witness for C3: with a heap on which the very first `malloc` (the
Controller struct) fails, `init` returns 1000 and the untouched state. -/
theorem spec_C3_witness :
    deeplearn_dnc_init sampleConfig allocNone sampleOracle sampleUninit
      16 1 1 1 1 1 =
      (1000, { sampleUninit with no_of_inputs := 1, no_of_outputs := 1,
                                 controller := Ptr.null }) :=
  (spec_C3_init_error_propagation sampleConfig allocNone sampleOracle
    sampleUninit 16 1 1 1 1 1).2.1 (by decide)

lemma deeplearn_dnc_init_succ_memory_fields (cfg : DncConfig) (A : Allocator)
    (co : ControllerOracle) (s₀ : deeplearn_dnc) (ms mw ni nh hl no : ℕ)
    (h : (deeplearn_dnc_init cfg A co s₀ ms mw ni nh hl no).1 = 0) :
    (deeplearn_dnc_init cfg A co s₀ ms mw ni nh hl no).2.memory.size =
      ms / DEEPLEARNDNC_USAGE_BLOCK_SIZE * DEEPLEARNDNC_USAGE_BLOCK_SIZE ∧
    (deeplearn_dnc_init cfg A co s₀ ms mw ni nh hl no).2.memory.width = mw ∧
    (deeplearn_dnc_init cfg A co s₀ ms mw ni nh hl no).2.memory.address =
      (deeplearn_dnc_init_mem_stage A co s₀ ms mw ni no).2.2.memory.address := by
  obtain ⟨-, -, -, -, -, hfin⟩ :=
    deeplearn_dnc_init_succ_cases cfg A co s₀ ms mw ni nh hl no h
  have hmemh : (deeplearn_dnc_init cfg A co s₀ ms mw ni nh hl no).2.memory =
      (deeplearn_dnc_init_usage_stage A co s₀ ms mw ni no).2.2.memory := by
    rw [hfin]
    show (deeplearn_dnc_init_heads_stage A co s₀ ms mw ni no).2.2.memory = _
    unfold deeplearn_dnc_init_heads_stage
    exact (deeplearn_dnc_init_heads_state A _ _).1
  refine ⟨?_, ?_, ?_⟩
  · rw [hmemh]
    unfold deeplearn_dnc_init_usage_stage
    rw [(deeplearn_dnc_init_memory_usage_state A _ _).1]
    unfold deeplearn_dnc_init_mem_stage
    exact (deeplearn_dnc_init_memory_state A _ _ _ _).1
  · rw [hmemh]
    unfold deeplearn_dnc_init_usage_stage
    rw [(deeplearn_dnc_init_memory_usage_state A _ _).2.1]
    unfold deeplearn_dnc_init_mem_stage
    exact (deeplearn_dnc_init_memory_state A _ _ _ _).2.1
  · rw [hmemh]
    unfold deeplearn_dnc_init_usage_stage
    exact (deeplearn_dnc_init_memory_usage_state A _ _).2.2.1

/-- Counterexample to C5 as stated: on a heap whose fresh `malloc` buffers
contain the residue value 7, `deeplearn_dnc_init` succeeds but the address
vectors of the bank are not zero-initialised (the source allocates them with
`malloc` and never clears them). -/
theorem spec_C5_counterexample :
    (deeplearn_dnc_init sampleConfig allocSevens sampleOracle sampleUninit
      16 1 1 1 1 1).1 = 0 ∧
    dnc_memory_addresses_zeroed
      (deeplearn_dnc_init sampleConfig allocSevens sampleOracle sampleUninit
        16 1 1 1 1 1).2 = false :=
  ⟨by decide, by decide⟩

/-- Claim C5, amended: after a successful `deeplearn_dnc_init` the bank's
`memory.size` address vectors are all allocated with `memory_width` scalars
each, but their contents are the indeterminate values supplied by the
allocator (not necessarily zero); every scalar reads as zero only after an
explicit `deeplearn_dnc_clear_memory`. -/
theorem spec_C5_init_allocates_clear_zeroes (cfg : DncConfig) (A : Allocator)
    (co : ControllerOracle) (s₀ : deeplearn_dnc) (ms mw ni nh hl no : ℕ)
    (h : (deeplearn_dnc_init cfg A co s₀ ms mw ni nh hl no).1 = 0) :
    ∃ l, (deeplearn_dnc_init cfg A co s₀ ms mw ni nh hl no).2.memory.address =
        Ptr.valid l ∧
      l.length = (deeplearn_dnc_init cfg A co s₀ ms mw ni nh hl no).2.memory.size ∧
      (∀ p ∈ l, ∃ v, p = Ptr.valid v ∧ v.length = mw) ∧
      dnc_memory_addresses_zeroed
        (deeplearn_dnc_clear_memory
          (deeplearn_dnc_init cfg A co s₀ ms mw ni nh hl no).2) = true := by
  obtain ⟨-, hm, -, -, -, -⟩ :=
    deeplearn_dnc_init_succ_cases cfg A co s₀ ms mw ni nh hl no h
  obtain ⟨hS, hW, hAddr⟩ :=
    deeplearn_dnc_init_succ_memory_fields cfg A co s₀ ms mw ni nh hl no h
  have hm0 : (deeplearn_dnc_init_memory A 1
      (deeplearn_dnc_init_stage0 co s₀ ni no) ms mw).1 = 0 := hm
  obtain ⟨l, haddr, hlen, hval⟩ :=
    deeplearn_dnc_init_memory_succ A 1 (deeplearn_dnc_init_stage0 co s₀ ni no)
      ms mw hm0
  have hA : (deeplearn_dnc_init cfg A co s₀ ms mw ni nh hl no).2.memory.address =
      Ptr.valid l := by
    rw [hAddr]
    exact haddr
  refine ⟨l, hA, by rw [hS, hlen], hval, ?_⟩
  have hclear : (deeplearn_dnc_clear_memory
      (deeplearn_dnc_init cfg A co s₀ ms mw ni nh hl no).2).memory.address =
      Ptr.valid (l.map (clearSlot mw)) := by
    simp only [deeplearn_dnc_clear_memory]
    rw [hA, hS, hW]
    simp only [Ptr.map]
    congr 1
    rw [List.take_of_length_le (le_of_eq hlen),
      List.drop_eq_nil_of_le (le_of_eq hlen), List.append_nil]
  have hcsize : (deeplearn_dnc_clear_memory
      (deeplearn_dnc_init cfg A co s₀ ms mw ni nh hl no).2).memory.size =
      (deeplearn_dnc_init cfg A co s₀ ms mw ni nh hl no).2.memory.size := rfl
  unfold dnc_memory_addresses_zeroed
  rw [hclear, hcsize, hS]
  dsimp only
  rw [List.take_of_length_le (by rw [List.length_map, hlen])]
  rw [List.all_eq_true]
  intro p hp
  obtain ⟨p0, hp0, hcp⟩ := List.mem_map.mp hp
  obtain ⟨v, hpv, hvlen⟩ := hval p0 hp0
  have hcval : clearSlot mw p0 = Ptr.valid (List.replicate mw (0 : ℚ)) := by
    rw [hpv]
    simp [clearSlot, hvlen, List.drop_eq_nil_of_le (le_of_eq hvlen)]
  rw [← hcp, hcval]
  simp

/-- Witness for the amended C5: a concrete successful init on the
residue-7 heap, with clearing yielding all-zero address vectors. -/
theorem spec_C5_witness :
    (deeplearn_dnc_init sampleConfig allocSevens sampleOracle sampleUninit
      16 1 1 1 1 1).1 = 0 ∧
    ∃ l, (deeplearn_dnc_init sampleConfig allocSevens sampleOracle sampleUninit
        16 1 1 1 1 1).2.memory.address = Ptr.valid l ∧
      l.length = (deeplearn_dnc_init sampleConfig allocSevens sampleOracle
        sampleUninit 16 1 1 1 1 1).2.memory.size ∧
      (∀ p ∈ l, ∃ v, p = Ptr.valid v ∧ v.length = 1) ∧
      dnc_memory_addresses_zeroed
        (deeplearn_dnc_clear_memory
          (deeplearn_dnc_init sampleConfig allocSevens sampleOracle
            sampleUninit 16 1 1 1 1 1).2) = true :=
  ⟨by decide,
    spec_C5_init_allocates_clear_zeroes sampleConfig allocSevens sampleOracle
      sampleUninit 16 1 1 1 1 1 (by decide)⟩

/-- Claim C2 is violated by the code: evaluating `deeplearn_dnc_clear_memory`
on a successfully initialised DNC (residue-7 heap, `memory_size = 16`,
`memory_width = 1`, one read and one write head, so
`memory_usage_size = 1` and two 1×1 linkage matrices holding 7).  After the
clear, the address vectors and the usage vector are zero, but the linkage
matrices are not: the third `memset` NULLs the first
`min(memory_usage_size², READ_HEADS+WRITE_HEADS) = 1` matrix pointer and
leaves the second matrix's element equal to 7 — no linkage-matrix element
was ever written. -/
theorem spec_C2_clear_memory_misses_linkage :
    (deeplearn_dnc_init sampleConfig allocSevens sampleOracle sampleUninit
      16 1 1 1 1 1).1 = 0 ∧
    dnc_memory_addresses_zeroed
      (deeplearn_dnc_clear_memory
        (deeplearn_dnc_init sampleConfig allocSevens sampleOracle sampleUninit
          16 1 1 1 1 1).2) = true ∧
    (deeplearn_dnc_clear_memory
        (deeplearn_dnc_init sampleConfig allocSevens sampleOracle sampleUninit
          16 1 1 1 1 1).2).memory.usage = Ptr.valid [0] ∧
    (deeplearn_dnc_clear_memory
        (deeplearn_dnc_init sampleConfig allocSevens sampleOracle sampleUninit
          16 1 1 1 1 1).2).memory.usage_temporal =
      [Ptr.null, Ptr.valid [7]] :=
  ⟨by decide, by decide, by decide, by decide⟩

set_option maxRecDepth 4000 in
/-- Claim C6 is violated by the code: forcing the bank-vector allocation to
fail on the 5th of 128 slots makes `deeplearn_dnc_init` return the
bank-tagged code 2002, but the remaining 123 never-visited slots of the
freshly `malloc`ed pointer array still hold indeterminate pointers (the
source never NULLs them), so the `deeplearn_dnc_free_memory` loop — which
frees all `memory.size = 128` slots — would pass garbage pointers to
`free`. -/
theorem spec_C6_partial_alloc_leaves_garbage :
    (deeplearn_dnc_init sampleConfig allocFailAt6 sampleOracle sampleUninit
      128 4 1 1 1 1).1 = 2002 ∧
    (deeplearn_dnc_init sampleConfig allocFailAt6 sampleOracle sampleUninit
        128 4 1 1 1 1).2.memory.size = 128 ∧
    (deeplearn_dnc_init sampleConfig allocFailAt6 sampleOracle sampleUninit
        128 4 1 1 1 1).2.memory.address =
      Ptr.valid (List.replicate 4 (Ptr.valid [0, 0, 0, 0]) ++
        Ptr.null :: List.replicate 123 Ptr.garbage) ∧
    deeplearn_dnc_free_memory_safe
      (deeplearn_dnc_init sampleConfig allocFailAt6 sampleOracle sampleUninit
        128 4 1 1 1 1).2 = false :=
  ⟨by decide, by decide, by decide, by decide⟩

/-- Counterexample to C8 as stated: on a concrete successfully initialised
DNC, the release trace of `deeplearn_dnc_free` is not
heads ++ usage tracker ++ memory bank ++ controller: the source frees the
memory bank first, not the heads. -/
theorem spec_C8_counterexample :
    deeplearn_dnc_free_trace sampleConfig
        (deeplearn_dnc_init sampleConfig allocAll sampleOracle sampleUninit
          16 1 1 1 1 1).2 ≠
      deeplearn_dnc_free_heads_trace sampleConfig ++
        deeplearn_dnc_free_memory_usage_trace sampleConfig ++
          deeplearn_dnc_free_memory_trace
            (deeplearn_dnc_init sampleConfig allocAll sampleOracle sampleUninit
              16 1 1 1 1 1).2 ++ deeplearn_free_trace := by
  decide

/-- Claim C8, amended: `deeplearn_dnc_free` releases the subsystems in the
same order they were allocated, not the reverse: first the memory bank
(every address vector, then the pointer array), then the usage tracker (the
usage vector, then every linkage matrix), then the heads, and last the
Controller network; the release trace is sorted by that subsystem order. -/
theorem spec_C8_free_order (cfg : DncConfig) (s : deeplearn_dnc) :
    deeplearn_dnc_free_trace cfg s =
      List.replicate (s.memory.size + 1) Subsys.bank ++
        (List.replicate (1 + (cfg.READ_HEADS + cfg.WRITE_HEADS)) Subsys.usage ++
          (List.replicate (cfg.READ_HEADS + cfg.WRITE_HEADS * 3) Subsys.heads ++
            [Subsys.ctrl])) ∧
    List.Pairwise (fun a b => subsysRank a ≤ subsysRank b)
      (deeplearn_dnc_free_trace cfg s) := by
  have h1 : deeplearn_dnc_free_memory_trace s =
      List.replicate (s.memory.size + 1) Subsys.bank := by
    unfold deeplearn_dnc_free_memory_trace
    rw [List.replicate_succ' s.memory.size Subsys.bank]
  have h2 : deeplearn_dnc_free_memory_usage_trace cfg =
      List.replicate (1 + (cfg.READ_HEADS + cfg.WRITE_HEADS)) Subsys.usage := by
    unfold deeplearn_dnc_free_memory_usage_trace
    rw [Nat.add_comm 1 (cfg.READ_HEADS + cfg.WRITE_HEADS),
      List.replicate_succ Subsys.usage (cfg.READ_HEADS + cfg.WRITE_HEADS)]
  have h3 : deeplearn_dnc_free_heads_trace cfg =
      List.replicate (cfg.READ_HEADS + cfg.WRITE_HEADS * 3) Subsys.heads := by
    unfold deeplearn_dnc_free_heads_trace
    rw [List.replicate_add]
  have hform : deeplearn_dnc_free_trace cfg s =
      List.replicate (s.memory.size + 1) Subsys.bank ++
        (List.replicate (1 + (cfg.READ_HEADS + cfg.WRITE_HEADS)) Subsys.usage ++
          (List.replicate (cfg.READ_HEADS + cfg.WRITE_HEADS * 3) Subsys.heads ++
            [Subsys.ctrl])) := by
    unfold deeplearn_dnc_free_trace deeplearn_free_trace
    rw [h1, h2, h3, List.append_assoc, List.append_assoc]
  refine ⟨hform, ?_⟩
  rw [hform]
  rw [List.pairwise_append]
  refine ⟨List.pairwise_replicate.mpr (Or.inr le_rfl), ?_, ?_⟩
  · rw [List.pairwise_append]
    refine ⟨List.pairwise_replicate.mpr (Or.inr le_rfl), ?_, ?_⟩
    · rw [List.pairwise_append]
      refine ⟨List.pairwise_replicate.mpr (Or.inr le_rfl),
        List.pairwise_singleton _ _, ?_⟩
      intro a ha b hb
      rw [List.eq_of_mem_replicate ha, List.mem_singleton.mp hb]
      decide
    · intro a ha b hb
      rw [List.eq_of_mem_replicate ha]
      rcases List.mem_append.mp hb with hb | hb
      · rw [List.eq_of_mem_replicate hb]; decide
      · rw [List.mem_singleton.mp hb]; decide
  · intro a ha b hb
    rw [List.eq_of_mem_replicate ha]
    rcases List.mem_append.mp hb with hb | hb
    · rw [List.eq_of_mem_replicate hb]; decide
    rcases List.mem_append.mp hb with hb | hb
    · rw [List.eq_of_mem_replicate hb]; decide
    · rw [List.mem_singleton.mp hb]; decide
